import Mathlib

/-!
Shallow embedding of `src/weatherapp.tsx`, a React weather-dashboard
component.  The component keeps six reactive state fields (current
weather, forecast, search text, unit system, loading flag, error
message), fetches current conditions and a five-day forecast from the
OpenWeatherMap provider, and renders a loading / error / dashboard view.

Network calls are embedded by passing each HTTP response in as an
`Except String _` value; each routine returns the successor state
together with the list of requests it issued, so that claims about
"which requests are sent" and "which state fields change" are provable.
-/

namespace WeatherApp

/-- `'metric' | 'imperial'` union type of the source. -/
inductive UnitSystem where
  | metric
  | imperial
deriving DecidableEq, Repr

/-- The `main` block of a `WeatherData` payload (types.ts). -/
structure MainBlock where
  temp : ℚ
  feels_like : ℚ
  humidity : ℚ
  pressure : ℚ
deriving DecidableEq, Repr

/-- One weather-condition entry of a `WeatherData` payload (types.ts). -/
structure WeatherCond where
  description : String
  icon : String
deriving DecidableEq, Repr

/-- The `wind` block of a `WeatherData` payload (types.ts). -/
structure Wind where
  speed : ℚ
  deg : ℚ
deriving DecidableEq, Repr

/-- `WeatherData` interface (types.ts). -/
structure WeatherData where
  dt : ℤ
  main : MainBlock
  weather : List WeatherCond
  wind : Wind
  name : String
deriving DecidableEq, Repr

/-- The `city` block of a `ForecastData` payload (types.ts). -/
structure City where
  name : String
  country : String
deriving DecidableEq, Repr

/-- `ForecastData` interface (types.ts). -/
structure ForecastData where
  list : List WeatherData
  city : City
deriving DecidableEq, Repr

/-- One best-match record returned by the geocoding endpoint
(`geoRes.data[0]` is destructured to `{ lat, lon }`). -/
structure GeoEntry where
  lat : ℚ
  lon : ℚ
deriving DecidableEq, Repr

/-- The component's reactive state: the six `useState` fields declared at
the top of `WeatherApp`. -/
structure AppState where
  weather : Option WeatherData
  forecast : Option ForecastData
  location : String
  unit : UnitSystem
  loading : Bool
  error : String
deriving DecidableEq, Repr

/-- The initial state given by the `useState` initialisers:
`null`, `null`, `''`, `'metric'`, `false`, `''`. -/
def initialState : AppState :=
  { weather := none, forecast := none, location := "", unit := .metric,
    loading := false, error := "" }

/-- An outbound HTTP request, identified by endpoint and the parameters
interpolated into its URL. -/
inductive Request where
  | weatherReq (lat lon : ℚ) (units : UnitSystem)
  | forecastReq (lat lon : ℚ) (units : UnitSystem)
  | geoReq (q : String) (limit : Nat)
deriving DecidableEq, Repr

/-- `Promise.all` over two settled promises: the join succeeds only if
both succeed; the first rejection short-circuits it. -/
def promiseAll2 {E A B : Type} (a : Except E A) (b : Except E B) :
    Except E (A × B) :=
  match a with
  | .error e => .error e
  | .ok x =>
    match b with
    | .error e => .error e
    | .ok y => .ok (x, y)

/-- `fetchWeather` (src/weatherapp.tsx lines 17–31): sets `loading`,
issues the current-conditions and forecast requests in parallel with the
given coordinates and the state's `unit`, and on joint success stores
both payloads; on any rejection the `catch` sets the generic message and
touches neither data field.  The `finally` clears `loading` either way.
The network responses are supplied as `Except` arguments. -/
def fetchWeather (s : AppState) (lat lon : ℚ)
    (weatherRes : Except String WeatherData)
    (forecastRes : Except String ForecastData) :
    AppState × List Request :=
  let s1 := { s with loading := true }
  let reqs := [Request.weatherReq lat lon s.unit,
               Request.forecastReq lat lon s.unit]
  match promiseAll2 weatherRes forecastRes with
  | .ok (w, f) =>
    ({ s1 with weather := some w, forecast := some f, loading := false },
     reqs)
  | .error _ =>
    ({ s1 with error := "Failed to fetch weather data", loading := false },
     reqs)

/-- `handleSearch` (src/weatherapp.tsx lines 33–55): returns immediately
when `location` is falsy (the empty string); otherwise sets `loading`,
issues the geocoding request with `limit=1`, and on a zero-match
response sets `'Location not found'` and aborts; on a match it awaits
`fetchWeather` with the best match's coordinates; a rejected geocoding
request sets `'Failed to fetch location'`.  Its `finally` clears
`loading` on every path that got past the guard. -/
def handleSearch (s : AppState)
    (geoRes : Except String (List GeoEntry))
    (weatherRes : Except String WeatherData)
    (forecastRes : Except String ForecastData) :
    AppState × List Request :=
  if s.location = "" then (s, [])
  else
    let s1 := { s with loading := true }
    let g := Request.geoReq s.location 1
    match geoRes with
    | .error _ =>
      ({ s1 with error := "Failed to fetch location", loading := false }, [g])
    | .ok entries =>
      match entries with
      | [] =>
        ({ s1 with error := "Location not found", loading := false }, [g])
      | e :: _ =>
        let p := fetchWeather s1 e.lat e.lon weatherRes forecastRes
        ({ p.1 with loading := false }, g :: p.2)

/-- Outcome of `navigator.geolocation.getCurrentPosition`. -/
inductive GeoResult where
  | success (lat lon : ℚ)
  | failure
deriving DecidableEq, Repr

/-- The `useEffect` body (src/weatherapp.tsx lines 57–64), re-run on
every change of `unit`: on geolocation success it calls `fetchWeather`
with the position's coordinates; on failure it only sets the advisory
message and issues no request. -/
def geolocationEffect (s : AppState) (geo : GeoResult)
    (weatherRes : Except String WeatherData)
    (forecastRes : Except String ForecastData) :
    AppState × List Request :=
  match geo with
  | .success lat lon => fetchWeather s lat lon weatherRes forecastRes
  | .failure =>
    ({ s with error := "Geolocation blocked. Please enable it or search manually." },
     [])

/-- The unit-toggle button's `onClick`:
`setUnit(unit === 'metric' ? 'imperial' : 'metric')`. -/
def toggleUnit (s : AppState) : AppState :=
  { s with unit := match s.unit with
                   | .metric => .imperial
                   | .imperial => .metric }

/-- A unit toggle followed by the `useEffect` re-run its dependency
change triggers (dependency array `[unit]`). -/
def unitToggleRefetch (s : AppState) (geo : GeoResult)
    (weatherRes : Except String WeatherData)
    (forecastRes : Except String ForecastData) :
    AppState × List Request :=
  geolocationEffect (toggleUnit s) geo weatherRes forecastRes

/-- JavaScript `Math.round`: round half toward positive infinity. -/
def jsRound (q : ℚ) : ℤ := ⌊q + 1/2⌋

/-- The suffix interpolated after a temperature:
`°` followed by `unit === 'metric' ? 'C' : 'F'`. -/
def tempSuffix (u : UnitSystem) : String :=
  "°" ++ (match u with | .metric => "C" | .imperial => "F")

/-- The temperature line of the main dashboard card
(src/weatherapp.tsx line 113):
`{Math.round(weather.main.temp)}°{unit === 'metric' ? 'C' : 'F'}`. -/
def dashboardTempText (w : WeatherData) (u : UnitSystem) : String :=
  toString (jsRound w.main.temp) ++ tempSuffix u

/-- The rendered content of one `ForecastDay` tile
(src/weatherapp.tsx lines 163–178), minus locale date formatting. -/
structure ForecastTile where
  dt : ℤ
  iconUrl : String
  tempText : String
  description : String
deriving DecidableEq, Repr

/-- `ForecastDay` (src/weatherapp.tsx lines 163–178): renders the icon
at `@2x`, `Math.round(data.main.temp)` with the unit suffix, and the
first condition entry's description. -/
def ForecastDay (data : WeatherData) (u : UnitSystem) : ForecastTile :=
  { dt := data.dt
  , iconUrl := "https://openweathermap.org/img/wn/"
      ++ (data.weather.headD ⟨"", ""⟩).icon ++ "@2x.png"
  , tempText := toString (jsRound data.main.temp) ++ tempSuffix u
  , description := (data.weather.headD ⟨"", ""⟩).description }

/-- The forecast grid (src/weatherapp.tsx lines 141–145):
`forecast.list.slice(0, 5).map((day) => <ForecastDay ... />)`. -/
def forecastTiles (f : ForecastData) (u : UnitSystem) : List ForecastTile :=
  (f.list.take 5).map (fun d => ForecastDay d u)

/-- The dashboard gate `weather && forecast` (src/weatherapp.tsx
line 94): the full dashboard is rendered exactly when both are
non-null. -/
def dashboardOf (s : AppState) : Option (WeatherData × ForecastData) :=
  match s.weather, s.forecast with
  | some w, some f => some (w, f)
  | _, _ => none

/-- What the component returns, by the early-return chain. -/
inductive View where
  | loadingView
  | errorView (msg : String)
  | mainView (dashboard : Option (WeatherData × ForecastData))
deriving DecidableEq, Repr

/-- The render selector (src/weatherapp.tsx lines 66–67 and 94):
`if (loading) return <BeatLoader/>; if (error) return <div>{error}</div>;`
then the main markup, whose dashboard section is gated on
`weather && forecast`.  A string is truthy in JavaScript iff it is
non-empty. -/
def render (s : AppState) : View :=
  if s.loading then .loadingView
  else if s.error ≠ "" then .errorView s.error
  else .mainView (dashboardOf s)

/-! Concrete sample payloads, used by the closed witness and
counterexample theorems. -/

/-- Sample weather-condition entry. -/
def sampleCond : WeatherCond := { description := "clear sky", icon := "01d" }

/-- Sample current-conditions payload. -/
def sampleWeather : WeatherData :=
  { dt := 1700000000
  , main := { temp := 21, feels_like := 20, humidity := 40, pressure := 1012 }
  , weather := [sampleCond]
  , wind := { speed := 3, deg := 90 }
  , name := "Nairobi" }

/-- Sample forecast entry at interval `n`. -/
def sampleAt (n : ℤ) : WeatherData := { sampleWeather with dt := n }

/-- Sample forecast payload with six intervals. -/
def sampleForecast : ForecastData :=
  { list := [sampleAt 1, sampleAt 2, sampleAt 3, sampleAt 4, sampleAt 5,
             sampleAt 6]
  , city := { name := "Nairobi", country := "KE" } }

/-- C1: on a combined fetch where either parallel request fails, neither
the current-weather state nor the forecast state is updated, and the
single generic fetch-failure message is set. -/
theorem fetchWeather_failure_preserves_data (s : AppState) (lat lon : ℚ)
    (wRes : Except String WeatherData) (fRes : Except String ForecastData)
    (h : (∃ e, wRes = Except.error e) ∨ (∃ e, fRes = Except.error e)) :
    (fetchWeather s lat lon wRes fRes).1.weather = s.weather ∧
    (fetchWeather s lat lon wRes fRes).1.forecast = s.forecast ∧
    (fetchWeather s lat lon wRes fRes).1.error = "Failed to fetch weather data" := by
  rcases h with ⟨e, he⟩ | ⟨e, he⟩
  · subst he
    simp [fetchWeather, promiseAll2]
  · subst he
    cases wRes <;> simp [fetchWeather, promiseAll2]

/-- Witness for C1: a failing weather request next to a succeeding
forecast request leaves prior data in place and sets the message. -/
theorem fetchWeather_failure_preserves_data_witness :
    (fetchWeather { initialState with weather := some sampleWeather } 1 2
        (Except.error "network error") (Except.ok sampleForecast)).1.weather =
      some sampleWeather ∧
    (fetchWeather { initialState with weather := some sampleWeather } 1 2
        (Except.error "network error") (Except.ok sampleForecast)).1.error =
      "Failed to fetch weather data" :=
  ⟨(fetchWeather_failure_preserves_data _ 1 2 _ _
      (Or.inl ⟨"network error", rfl⟩)).1,
   (fetchWeather_failure_preserves_data _ 1 2 _ _
      (Or.inl ⟨"network error", rfl⟩)).2.2⟩

/-- C2: the render selector checks `loading` first and `error` second:
with `loading` set the loading view is returned whatever the other
fields hold, and with `loading` clear and a non-empty `error` the error
view is returned whatever data is stored. -/
theorem render_precedence (s : AppState) :
    (s.loading = true → render s = View.loadingView) ∧
    (s.loading = false → s.error ≠ "" → render s = View.errorView s.error) := by
  constructor
  · intro h
    simp [render, h]
  · intro h h'
    simp [render, h, h']

/-- Sample state: an error message set while stale data is present and a
fetch is in flight. -/
def busyStaleState : AppState :=
  { initialState with
      loading := true
      error := "boom"
      weather := some sampleWeather
      forecast := some sampleForecast }

/-- Sample state: an error message set while stale data is present and
no fetch is in flight. -/
def erroredStaleState : AppState := { busyStaleState with loading := false }

/-- Witness for C2: a loading state with stale data and an error shows
the loader; a non-loading errored state with stale data shows the
error. -/
theorem render_precedence_witness :
    render busyStaleState = View.loadingView ∧
    render erroredStaleState = View.errorView "boom" :=
  ⟨(render_precedence _).1 rfl, (render_precedence _).2 rfl (by decide)⟩

/-- C3: a successful combined fetch issues exactly the two requests with
the given coordinates and the active unit, and afterwards the weather
and forecast fields are non-null simultaneously, so the dashboard gate
opens on the pair. -/
theorem fetchWeather_success_atomic (s : AppState) (lat lon : ℚ)
    (w : WeatherData) (f : ForecastData) :
    (fetchWeather s lat lon (Except.ok w) (Except.ok f)).2 =
      [Request.weatherReq lat lon s.unit, Request.forecastReq lat lon s.unit] ∧
    (fetchWeather s lat lon (Except.ok w) (Except.ok f)).1.weather = some w ∧
    (fetchWeather s lat lon (Except.ok w) (Except.ok f)).1.forecast = some f ∧
    dashboardOf (fetchWeather s lat lon (Except.ok w) (Except.ok f)).1 =
      some (w, f) :=
  ⟨rfl, rfl, rfl, rfl⟩

/-- C4: a manual search whose geocoding lookup returns zero matches sets
the location-not-found message, issues only the geocoding request (never
a weather or forecast request), and leaves both data fields unchanged. -/
theorem handleSearch_zero_matches (s : AppState) (hloc : s.location ≠ "")
    (wRes : Except String WeatherData) (fRes : Except String ForecastData) :
    (handleSearch s (Except.ok []) wRes fRes).1.error = "Location not found" ∧
    (handleSearch s (Except.ok []) wRes fRes).2 = [Request.geoReq s.location 1] ∧
    (handleSearch s (Except.ok []) wRes fRes).1.weather = s.weather ∧
    (handleSearch s (Except.ok []) wRes fRes).1.forecast = s.forecast := by
  simp [handleSearch, hloc]

/-- Witness for C4: searching for Nowhereville against an empty
geocoding response yields the message and only the geocoding request. -/
theorem handleSearch_zero_matches_witness :
    (handleSearch { initialState with location := "Nowhereville" }
        (Except.ok []) (Except.ok sampleWeather)
        (Except.ok sampleForecast)).1.error = "Location not found" ∧
    (handleSearch { initialState with location := "Nowhereville" }
        (Except.ok []) (Except.ok sampleWeather)
        (Except.ok sampleForecast)).2 = [Request.geoReq "Nowhereville" 1] :=
  ⟨(handleSearch_zero_matches _ (by decide) _ _).1,
   (handleSearch_zero_matches _ (by decide) _ _).2.1⟩

/-- Counterexample for C5: the source never clears `error`, so after a
state in which the location-not-found message is set, a subsequent fully
successful fetch still leaves the message set, and the render selector
still displays it instead of the freshly fetched data. -/
theorem error_still_displayed_after_success :
    (fetchWeather { initialState with error := "Location not found" } 1 2
        (Except.ok sampleWeather) (Except.ok sampleForecast)).1.error =
      "Location not found" ∧
    render (fetchWeather { initialState with error := "Location not found" } 1 2
        (Except.ok sampleWeather) (Except.ok sampleForecast)).1 =
      View.errorView "Location not found" := by
  constructor
  · rfl
  · rfl

/-- C5 amended: every completion of the combined fetch (success or
failure) clears the loading flag, but a previously set error message is
never cleared: a later successful fetch leaves it intact and it remains
the displayed state. -/
theorem fetchWeather_clears_loading_keeps_error (s : AppState) (lat lon : ℚ)
    (wRes : Except String WeatherData) (fRes : Except String ForecastData)
    (w : WeatherData) (f : ForecastData) (herr : s.error ≠ "") :
    (fetchWeather s lat lon wRes fRes).1.loading = false ∧
    (fetchWeather s lat lon (Except.ok w) (Except.ok f)).1.error = s.error ∧
    render (fetchWeather s lat lon (Except.ok w) (Except.ok f)).1 =
      View.errorView s.error := by
  refine ⟨?_, rfl, ?_⟩
  · cases wRes <;> cases fRes <;> simp [fetchWeather, promiseAll2]
  · simp [render, fetchWeather, promiseAll2, herr]

/-- Witness for C5 amended: from an errored state, a successful fetch
clears loading, keeps the message, and still shows the error view. -/
theorem fetchWeather_clears_loading_keeps_error_witness :
    (fetchWeather { initialState with error := "boom" } 1 2
        (Except.error "late failure") (Except.ok sampleForecast)).1.loading =
      false ∧
    render (fetchWeather { initialState with error := "boom" } 1 2
        (Except.ok sampleWeather) (Except.ok sampleForecast)).1 =
      View.errorView "boom" :=
  ⟨(fetchWeather_clears_loading_keeps_error _ 1 2 _ _ sampleWeather
      sampleForecast (by decide)).1,
   (fetchWeather_clears_loading_keeps_error _ 1 2 (Except.error "late failure")
      (Except.ok sampleForecast) _ _ (by decide)).2.2⟩

/-- C6: a unit toggle re-runs the geolocation effect, and on geolocation
success the two refetch requests carry the toggled unit (the toggled
unit always differs from the previous one, and no geocoding request is
issued, so this is not the manual-search path); the temperature then
displayed is the rounding of the newly fetched payload's raw value,
with no client-side conversion of the prior reading. -/
theorem unitToggle_refetch_new_unit (s : AppState) (lat lon : ℚ)
    (w : WeatherData) (f : ForecastData) :
    (unitToggleRefetch s (GeoResult.success lat lon)
        (Except.ok w) (Except.ok f)).2 =
      [Request.weatherReq lat lon (toggleUnit s).unit,
       Request.forecastReq lat lon (toggleUnit s).unit] ∧
    (toggleUnit s).unit ≠ s.unit ∧
    (unitToggleRefetch s (GeoResult.success lat lon)
        (Except.ok w) (Except.ok f)).1.weather = some w ∧
    (unitToggleRefetch s (GeoResult.success lat lon)
        (Except.ok w) (Except.ok f)).1.forecast = some f ∧
    dashboardTempText w (toggleUnit s).unit =
      toString (jsRound w.main.temp) ++ tempSuffix (toggleUnit s).unit := by
  refine ⟨rfl, ?_, rfl, rfl, rfl⟩
  cases h : s.unit <;> simp [toggleUnit, h]

/-- Spec-side temperature formatting, from the words of the round-trip
property: the rounded raw temperature followed by the suffix that is
exactly the degree sign with C for metric and F for imperial. -/
def specTempText (t : ℚ) (u : UnitSystem) : String :=
  toString (jsRound t) ++ (match u with | .metric => "°C" | .imperial => "°F")

/-- C7: for every payload the dashboard temperature line and every
forecast tile's temperature line agree with the spec's formatting:
the rounded `main.temp` followed by the exact suffix for the active
unit. -/
theorem displayed_temp_round_trip (w : WeatherData) (u : UnitSystem) :
    dashboardTempText w u = specTempText w.main.temp u ∧
    (ForecastDay w u).tempText = specTempText w.main.temp u ∧
    tempSuffix UnitSystem.metric = "°C" ∧
    tempSuffix UnitSystem.imperial = "°F" := by
  cases u <;> exact ⟨rfl, rfl, rfl, rfl⟩

/-- C8: when the forecast list has at least five entries, exactly five
tiles are rendered and the tile at each position below five is the
rendering of the list entry at the same position. -/
theorem forecastTiles_first_five (f : ForecastData) (u : UnitSystem)
    (h : 5 ≤ f.list.length) :
    (forecastTiles f u).length = 5 ∧
    ∀ i, i < 5 →
      (forecastTiles f u)[i]? = (f.list[i]?).map (fun d => ForecastDay d u) := by
  constructor
  · simp [forecastTiles, List.length_take]
    omega
  · intro i hi
    simp [forecastTiles, List.getElem?_map, List.getElem?_take, hi]

/-- Witness for C8: the six-entry sample forecast renders exactly five
tiles and the third tile comes from the third list entry. -/
theorem forecastTiles_first_five_witness :
    (forecastTiles sampleForecast UnitSystem.metric).length = 5 ∧
    (forecastTiles sampleForecast UnitSystem.metric)[2]? =
      (sampleForecast.list[2]?).map
        (fun d => ForecastDay d UnitSystem.metric) :=
  ⟨(forecastTiles_first_five sampleForecast UnitSystem.metric (by decide)).1,
   (forecastTiles_first_five sampleForecast UnitSystem.metric (by decide)).2
      2 (by decide)⟩

/-- C9: from the initial state, a geolocation failure issues no request,
leaves both data fields empty, and makes the advisory message the
rendered view, whatever the (unconsumed) network responses would have
been. -/
theorem geolocation_failure_advisory (wRes : Except String WeatherData)
    (fRes : Except String ForecastData) :
    (geolocationEffect initialState GeoResult.failure wRes fRes).2 = [] ∧
    (geolocationEffect initialState GeoResult.failure wRes fRes).1.weather =
      none ∧
    (geolocationEffect initialState GeoResult.failure wRes fRes).1.forecast =
      none ∧
    render (geolocationEffect initialState GeoResult.failure wRes fRes).1 =
      View.errorView
        "Geolocation blocked. Please enable it or search manually." :=
  ⟨rfl, rfl, rfl, rfl⟩

/-- C10: submitting the search form with an empty location string is a
no-op: the state is returned unchanged in every field and no request is
issued, whatever responses the network would have given. -/
theorem handleSearch_empty_location_noop (s : AppState) (h : s.location = "")
    (geoRes : Except String (List GeoEntry))
    (wRes : Except String WeatherData) (fRes : Except String ForecastData) :
    handleSearch s geoRes wRes fRes = (s, []) := by
  simp [handleSearch, h]

/-- Witness for C10: the initial state (empty search text) is untouched
by a form submission even when the network would answer. -/
theorem handleSearch_empty_location_noop_witness :
    handleSearch initialState (Except.ok [⟨7, 8⟩])
        (Except.ok sampleWeather) (Except.ok sampleForecast) =
      (initialState, []) :=
  handleSearch_empty_location_noop initialState rfl _ _ _

end WeatherApp
